import Mathlib

/-!
Verification of the tachi YAML-to-Python agent generator
(src/instant-agents/tachi/src/main.rs).

The program parses a YAML document into a `Spec` (agent name, tool list,
model), resolves tool and model strings against closed serde enumerations,
renders four output files from fixed templates, and writes them under a
directory named after the agent, guarded by an overwrite check.

This file is a shallow embedding: the serde-derived deserialization of the
enums and structs is translated into explicit Lean parse functions over a
raw-document model; the Tera template of agent.py is embedded as the literal
text segments around its three substitution slots; the sequential writes of
main are embedded as an explicit file-system-state transformer.
-/

namespace Tachi

/-! ## Data model (main.rs lines 35-84)

Rust: `enum Tool { Search, Webpage }` with serde rename_all = kebab-case,
so the accepted canonical spellings are "search" and "webpage"; the serde
alias attribute on each variant declares the very same string again
(alias "search" on Search, alias "webpage" on Webpage), so each variant is
matched by exactly one input string. Likewise `enum Model { QwenCoder }`
renames to "qwen-coder" and declares alias "qwen-coder". -/

inductive Tool where
  | Search : Tool
  | Webpage : Tool
deriving DecidableEq

inductive Model where
  | QwenCoder : Model
deriving DecidableEq

structure Agent where
  name : String
  tools : List Tool
  model : Model
deriving DecidableEq

structure Spec where
  agent : Agent
deriving DecidableEq

/-- Rust `Tool::py_import_name` (main.rs lines 57-62). -/
def Tool.py_import_name : Tool → String
  | Tool.Search => "DuckDuckGoSearchTool"
  | Tool.Webpage => "VisitWebpageTool"

/-- Rust `Tool::py_instance` (main.rs lines 63-68). -/
def Tool.py_instance : Tool → String
  | Tool.Search => "DuckDuckGoSearchTool()"
  | Tool.Webpage => "VisitWebpageTool()"

/-- Rust `Model::model_id` (main.rs lines 79-83). -/
def Model.model_id : Model → String
  | Model.QwenCoder => "Qwen/Qwen2.5-Coder-32B-Instruct"

/-! ## Error taxonomy

The spec names the validation and write failure modes MalformedInput,
MissingField, UnknownTool, UnknownModel, AlreadyExists.  In the code these
are serde deserialization errors (unknown variant / missing field), a YAML
parse error, and the `refusing to overwrite` bail in write_file.  IOFailure
(create_dir_all / fs::write failure) is external and not modelled. -/

inductive GenError where
  | malformedInput : GenError
  | missingField : String → GenError
  | unknownTool : String → GenError
  | unknownModel : String → GenError
  | alreadyExists : String → GenError
deriving DecidableEq

/-! ## Spec loader / validator

serde matches enum variant strings exactly and case-sensitively: for Tool
the accepted strings are the kebab-case renames (the alias attributes repeat
the same strings), anything else is an unknown-variant error carrying the
offending value. -/

/-- Deserialization of one `Tool` string (serde derive on main.rs lines 47-54).
Accepted strings: "search" (rename of Search; its alias is also "search"),
"webpage" (rename of Webpage; its alias is also "webpage"). -/
def parseTool (s : String) : Except GenError Tool :=
  if s = "search" then Except.ok Tool.Search
  else if s = "webpage" then Except.ok Tool.Webpage
  else Except.error (GenError.unknownTool s)

/-- Deserialization of the `Model` string (serde derive on main.rs lines 71-76).
Accepted string: "qwen-coder" (rename of QwenCoder; its alias is also
"qwen-coder"). -/
def parseModel (s : String) : Except GenError Model :=
  if s = "qwen-coder" then Except.ok Model.QwenCoder
  else Except.error (GenError.unknownModel s)

/-- serde seq deserialization of `tools`: elements resolved in input order,
first failure aborts. -/
def parseTools : List String → Except GenError (List Tool)
  | [] => Except.ok []
  | s :: rest =>
    match parseTool s with
    | Except.error e => Except.error e
    | Except.ok t =>
      match parseTools rest with
      | Except.error e => Except.error e
      | Except.ok ts => Except.ok (t :: ts)

/-- Raw document shape after YAML parsing, before validation: each field of
`agent` may be absent. -/
structure RawAgent where
  name : Option String
  tools : Option (List String)
  model : Option String

structure RawSpec where
  agent : Option RawAgent

/-- Deserialization of `Agent` (serde derive on main.rs lines 40-45): every
field is required; field strings are resolved against the closed enums. -/
def parseAgent (raw : RawAgent) : Except GenError Agent :=
  match raw.name with
  | none => Except.error (GenError.missingField "agent.name")
  | some name =>
    match raw.tools with
    | none => Except.error (GenError.missingField "agent.tools")
    | some rawTools =>
      match parseTools rawTools with
      | Except.error e => Except.error e
      | Except.ok tools =>
        match raw.model with
        | none => Except.error (GenError.missingField "agent.model")
        | some rawModel =>
          match parseModel rawModel with
          | Except.error e => Except.error e
          | Except.ok model => Except.ok (Agent.mk name tools model)

/-- Deserialization of `Spec` (main.rs lines 35-38, invoked at line 227). -/
def parseSpec (raw : RawSpec) : Except GenError Spec :=
  match raw.agent with
  | none => Except.error (GenError.missingField "agent")
  | some a =>
    match parseAgent a with
    | Except.error e => Except.error e
    | Except.ok ag => Except.ok (Spec.mk ag)

/-! ## Renderer (main.rs lines 90-113 and 196-218)

`render_agent_py` builds the vectors tool_imports and tool_instances by
mapping over spec.agent.tools, then substitutes them into the embedded Tera
template PY_AGENT_TEMPLATE.  The template has exactly three substitution
slots: the join of tool_imports with ", ", the model_id, and the loop over
tool_instances separated by ", " (which is the same join).  The constants
PY_AGENT_SEG1 .. PY_AGENT_SEG4 below are the literal template text between
those slots, transcribed from the raw string at main.rs lines 90-113.
Tera::one_off is called with autoescape off and the fixed template always
renders, so the Result in the source never errs and the embedding is total. -/

def tool_imports (tools : List Tool) : List String :=
  tools.map Tool.py_import_name

def tool_instances (tools : List Tool) : List String :=
  tools.map Tool.py_instance

def PY_AGENT_SEG1 : String :=
  "import os\nfrom dotenv import load_dotenv\nfrom smolagents import InferenceClientModel, CodeAgent, "

def PY_AGENT_SEG2 : String :=
  "\n\n# Load environment variables from .env file\nload_dotenv()\n\ndef create_agent():\n    \"\"\"Create and return a configured smolagents instance.\"\"\"\n    hf_token = os.getenv(\"HUGGINGFACEHUB_API_TOKEN\")\n    if not hf_token:\n        raise ValueError(\"HUGGINGFACEHUB_API_TOKEN environment variable not set\")\n\n    model = InferenceClientModel(\n        model_id=\""

def PY_AGENT_SEG3 : String :=
  "\",\n        token=hf_token\n    )\n\n    agent = CodeAgent(\n        tools=["

def PY_AGENT_SEG4 : String :=
  "],\n        model=model,\n    )\n    return agent\n"

/-- Rust `render_agent_py` (main.rs lines 196-218). -/
def render_agent_py (spec : Spec) : String :=
  PY_AGENT_SEG1
    ++ String.intercalate ", " (tool_imports spec.agent.tools)
    ++ PY_AGENT_SEG2
    ++ spec.agent.model.model_id
    ++ PY_AGENT_SEG3
    ++ String.intercalate ", " (tool_instances spec.agent.tools)
    ++ PY_AGENT_SEG4

/-- The static interactive front-end, PY_CLI_TEMPLATE (main.rs lines 115-180).
The source is a Rust raw string, so the backslash-n sequences inside the
Python string literals are literal two-character sequences in the file,
transcribed here as escaped backslashes. -/
def PY_CLI_TEMPLATE : String :=
  "#!/usr/bin/env python3\n\"\"\"\nInteractive CLI for the smolagent.\nProvides a classic chat interface with input/output loop.\n\"\"\"\n\nimport sys\nfrom agent import create_agent\n\n\ndef print_banner():\n    \"\"\"Print welcome banner.\"\"\"\n    print(\"=\" * 60)\n    print(\"HuggingFace Smolagent CLI\")\n    print(\"=\" * 60)\n    print(\"Type your requests and press Enter.\")\n    print(\"Type \x27exit\x27, \x27quit\x27, or press Ctrl+C to exit.\")\n    print(\"=\" * 60)\n    print()\n\n\ndef main():\n    \"\"\"Run the interactive CLI loop.\"\"\"\n    try:\n        # Initialize agent once at startup\n        print(\"Initializing agent...\")\n        agent = create_agent()\n        print(\"Agent ready!\\n\")\n\n        print_banner()\n\n        # Main interaction loop\n        while True:\n            try:\n                # Get user input\n                user_input = input(\"\\nYou: \").strip()\n\n                # Check for exit commands\n                if user_input.lower() in [\"exit\", \"quit\", \"q\"]:\n                    print(\"\\nGoodbye!\")\n                    break\n\n                # Skip empty inputs\n                if not user_input:\n                    continue\n\n                # Run agent with user input\n                print(\"\\nAgent: \", end=\"\", flush=True)\n                result = agent.run(user_input)\n                print(result)\n\n            except KeyboardInterrupt:\n                print(\"\\n\\nGoodbye!\")\n                break\n            except EOFError:\n                print(\"\\n\\nGoodbye!\")\n                break\n\n    except Exception as e:\n        print(f\"\\nError initializing agent: {e}\", file=sys.stderr)\n        sys.exit(1)\n\n\nif __name__ == \"__main__\":\n    main()\n"

/-- The static dependency manifest written as requirements.txt
(main.rs line 240). -/
def REQUIREMENTS_TXT : String :=
  "smolagents\npython-dotenv\nddgs\n"

/-- The static environment template written as .env.example
(main.rs line 244). -/
def ENV_EXAMPLE : String :=
  "# Put your Hugging Face token here\nHUGGINGFACEHUB_API_TOKEN=\n"

/-- The Renderer as a map from logical file name to content: the four
outputs main generates (main.rs lines 232-245), content only, no file IO. -/
def render (spec : Spec) : List (String × String) :=
  [ ("agent.py", render_agent_py spec)
  , ("cli.py", PY_CLI_TEMPLATE)
  , ("requirements.txt", REQUIREMENTS_TXT)
  , (".env.example", ENV_EXAMPLE) ]

/-! ## Output materialization (main.rs lines 182-194 and 221-250)

The file system is modelled as an association list from path to content.
`write_file` embeds the Rust function of the same name: if the path already
exists and force is off it bails with the AlreadyExists condition naming the
path, otherwise it writes the content (create-or-truncate).  Directory
creation (create_dir_all) has no observable effect in this model.  `writeAll`
embeds the four sequential write_file calls of main; a failure aborts the
run, leaving the state written so far.  `runGen` embeds main after reading
the input file: parse first (aborting with the state untouched on any
validation error), then write. -/

def FS : Type := List (String × String)

/-- Write or overwrite one path, keeping list order stable. -/
def upsert : FS → String → String → FS
  | [], p, c => [(p, c)]
  | (q, d) :: rest, p, c =>
    if q = p then (p, c) :: rest else (q, d) :: upsert rest p c

def fileExists (fs : FS) (p : String) : Bool :=
  (List.lookup p fs).isSome

/-- Rust `write_file` (main.rs lines 182-194). -/
def write_file (fs : FS) (path : String) (content : String) (force : Bool) :
    Except GenError FS :=
  if fileExists fs path && !force then
    Except.error (GenError.alreadyExists path)
  else
    Except.ok (upsert fs path content)

/-- The four sequential writes of main (main.rs lines 229-245): agent.py,
cli.py, requirements.txt, .env.example under the directory named after the
agent.  A failure aborts before any further write; earlier writes persist. -/
def writeAll (spec : Spec) (force : Bool) (fs : FS) : FS × Option GenError :=
  match write_file fs (spec.agent.name ++ "/agent.py") (render_agent_py spec) force with
  | Except.error e => (fs, some e)
  | Except.ok fs1 =>
    match write_file fs1 (spec.agent.name ++ "/cli.py") PY_CLI_TEMPLATE force with
    | Except.error e => (fs1, some e)
    | Except.ok fs2 =>
      match write_file fs2 (spec.agent.name ++ "/requirements.txt") REQUIREMENTS_TXT force with
      | Except.error e => (fs2, some e)
      | Except.ok fs3 =>
        match write_file fs3 (spec.agent.name ++ "/.env.example") ENV_EXAMPLE force with
        | Except.error e => (fs3, some e)
        | Except.ok fs4 => (fs4, none)

/-- The document read from disk: none models text that fails YAML parsing
altogether (MalformedInput), some a structurally parsed document still to be
validated. -/
def parseInput : Option RawSpec → Except GenError Spec
  | none => Except.error GenError.malformedInput
  | some raw => parseSpec raw

/-- Rust `main` after reading the input file (main.rs lines 221-250):
validate, then write; any validation error aborts with the file system
untouched. -/
def runGen (input : Option RawSpec) (force : Bool) (fs : FS) :
    FS × Option GenError :=
  match parseInput input with
  | Except.error e => (fs, some e)
  | Except.ok spec => writeAll spec force fs

/-- The round-trip example document of the spec. -/
def demoDoc : RawSpec :=
  RawSpec.mk (some (RawAgent.mk (some "demo") (some ["search"]) (some "qwen-coder")))

def demoSpec : Spec :=
  Spec.mk (Agent.mk "demo" [Tool.Search] Model.QwenCoder)

/-- File system state after a first successful generation of the demo spec
into an empty directory. -/
def demoFs1 : FS := (runGen (some demoDoc) false []).1

/-! ## C1: order and length of the generated lists -/

/-- C1: for every specification, the generated import list and instantiation
list in the primary agent definition file preserve the order of the tools
sequence exactly and each has length equal to the length of tools. -/
theorem c1_order_length :
    ∀ ts : List Tool,
      (tool_imports ts).length = ts.length
      ∧ (tool_instances ts).length = ts.length
      ∧ ∀ i : Nat,
          (tool_imports ts)[i]? = (ts[i]?).map Tool.py_import_name
          ∧ (tool_instances ts)[i]? = (ts[i]?).map Tool.py_instance := by
  intro ts
  refine ⟨?_, ?_, ?_⟩
  · simp [tool_imports]
  · simp [tool_instances]
  · intro i
    constructor
    · simp [tool_imports]
    · simp [tool_instances]

/-! ## C2: determinism and purity of the Renderer -/

/-- C2: the Renderer is deterministic and pure: it is a function of the
Specification alone (no state, time, or environment parameter appears in its
type), so two calls on equal specifications produce byte-identical output
maps. -/
theorem c2_render_deterministic :
    ∀ s1 s2 : Spec, s1 = s2 → render s1 = render s2 := by
  intro s1 s2 h
  rw [h]

/-- Witness for C2 at the demo specification. -/
theorem c2_render_deterministic_witness :
    render demoSpec = render demoSpec :=
  c2_render_deterministic demoSpec demoSpec rfl

/-! ## C5: empty tools sequence renders successfully with empty lists -/

/-- C5: for a specification with an empty tools sequence, rendering the
primary agent definition file succeeds (render_agent_py is total), and both
the substituted import list and the substituted instantiation list are the
empty string. -/
theorem c5_empty_tools :
    ∀ (n : String) (m : Model),
      String.intercalate ", " (tool_imports []) = ""
      ∧ String.intercalate ", " (tool_instances []) = ""
      ∧ render_agent_py (Spec.mk (Agent.mk n [] m)) =
          PY_AGENT_SEG1 ++ "" ++ PY_AGENT_SEG2 ++ m.model_id
            ++ PY_AGENT_SEG3 ++ "" ++ PY_AGENT_SEG4 := by
  intro n m
  refine ⟨rfl, rfl, ?_⟩
  simp [render_agent_py, tool_imports, tool_instances, String.intercalate]

/-! ## C9: the parser does not validate agent.name -/

/-- C9 counterexample: the parser accepts a document whose agent.name is the
empty string; the resulting Specification has an empty name, refuting the
claim that every successfully parsed Specification has a non-empty name. -/
theorem c9_counterexample :
    parseSpec (RawSpec.mk (some (RawAgent.mk (some "") (some []) (some "qwen-coder"))))
      = Except.ok (Spec.mk (Agent.mk "" [] Model.QwenCoder)) := by
  rfl

/-- C9 amended: parsing imposes no constraint on agent.name; any string,
including the empty string, is accepted verbatim as the name. -/
theorem c9_amended_no_name_validation :
    ∀ n : String,
      parseSpec (RawSpec.mk (some (RawAgent.mk (some n) (some []) (some "qwen-coder"))))
        = Except.ok (Spec.mk (Agent.mk n [] Model.QwenCoder)) := by
  intro n
  rfl

/-! ## C10: duplicate tool entries are kept, once per occurrence -/

/-- C10: parsing accepts a tools sequence listing the same spelling twice,
producing one Tool per occurrence, and the rendered import and instantiation
lists contain the symbol and expression once per occurrence, without
deduplication; in general the parsed tool list and the rendered lists keep
one entry per input occurrence. -/
theorem c10_duplicates :
    parseSpec (RawSpec.mk (some (RawAgent.mk (some "a") (some ["search", "search"]) (some "qwen-coder"))))
      = Except.ok (Spec.mk (Agent.mk "a" [Tool.Search, Tool.Search] Model.QwenCoder))
    ∧ String.intercalate ", " (tool_imports [Tool.Search, Tool.Search]) =
        "DuckDuckGoSearchTool, DuckDuckGoSearchTool"
    ∧ String.intercalate ", " (tool_instances [Tool.Search, Tool.Search]) =
        "DuckDuckGoSearchTool(), DuckDuckGoSearchTool()"
    ∧ ∀ raws ts, parseTools raws = Except.ok ts →
        ts.length = raws.length
        ∧ (tool_imports ts).length = raws.length
        ∧ (tool_instances ts).length = raws.length := by
  refine ⟨rfl, rfl, rfl, ?_⟩
  intro raws
  induction raws with
  | nil =>
    intro ts h
    cases ts with
    | nil => simp [tool_imports, tool_instances]
    | cons t ts => simp [parseTools] at h
  | cons s rest ih =>
    intro ts h
    simp only [parseTools] at h
    cases hs : parseTool s with
    | error e => rw [hs] at h; exact absurd h (by simp)
    | ok t =>
      rw [hs] at h
      cases hr : parseTools rest with
      | error e => rw [hr] at h; exact absurd h (by simp)
      | ok ts2 =>
        rw [hr] at h
        cases h
        have := ih ts2 hr
        simp [tool_imports, tool_instances] at this ⊢
        omega

/-- Witness for the general clause of C10 at the duplicate-spelling input. -/
theorem c10_duplicates_witness :
    ([Tool.Search, Tool.Search] : List Tool).length = (["search", "search"] : List String).length
    ∧ (tool_imports [Tool.Search, Tool.Search]).length = (["search", "search"] : List String).length
    ∧ (tool_instances [Tool.Search, Tool.Search]).length = (["search", "search"] : List String).length :=
  c10_duplicates.2.2.2 ["search", "search"] [Tool.Search, Tool.Search] (by rfl)

/-! ## C3: accepted spellings per variant

In the source, the serde alias declared on every Tool and Model variant is
the same string the kebab-case rename already produces, so each variant is
accepted under exactly one spelling and no distinct legacy alias exists. -/

/-- C3 counterexample: Tool.Search is accepted under no spelling other than
its canonical "search", so the claim that every variant also has a distinct
legacy alias spelling fails already at this variant. -/
theorem c3_counterexample :
    ¬ ∃ s : String, s ≠ "search" ∧ parseTool s = Except.ok Tool.Search := by
  rintro ⟨s, hne, h⟩
  by_cases h1 : s = "search"
  · exact hne h1
  · by_cases h2 : s = "webpage"
    · simp [parseTool, h1, h2] at h
    · simp [parseTool, h1, h2] at h

/-- C3 amended: each Tool and Model variant is accepted under exactly one
spelling, its canonical kebab-case form ("search", "webpage", "qwen-coder");
the serde alias declared on each variant coincides with that form, so
parsing is exact and case-sensitive with one spelling per variant. -/
theorem c3_amended_single_spelling :
    ∀ s : String,
      (parseTool s = Except.ok Tool.Search ↔ s = "search")
      ∧ (parseTool s = Except.ok Tool.Webpage ↔ s = "webpage")
      ∧ (parseModel s = Except.ok Model.QwenCoder ↔ s = "qwen-coder") := by
  intro s
  by_cases h1 : s = "search"
  · subst h1; refine ⟨by simp [parseTool], by simp [parseTool], by simp [parseModel]⟩
  · by_cases h2 : s = "webpage"
    · subst h2; refine ⟨by simp [parseTool], by simp [parseTool], by simp [parseModel]⟩
    · by_cases h3 : s = "qwen-coder"
      · subst h3; refine ⟨by simp [parseTool], by simp [parseTool], by simp [parseModel]⟩
      · exact ⟨by simp [parseTool, h1, h2], by simp [parseTool, h1, h2],
          by simp [parseModel, h3]⟩

/-! ## C4: unknown strings are rejected with the right error -/

/-- C4: any string outside the alias tables is rejected: in `agent.tools` it
fails the whole parse with UnknownTool carrying the offending value, as
`agent.model` it fails with UnknownModel carrying the value, and no
Specification is produced (the result is an error, not an ok); moreover no
tools list containing an unaccepted string ever parses successfully. -/
theorem c4_unknown_rejected (s m : String)
    (hs1 : s ≠ "search") (hs2 : s ≠ "webpage") (hm : m ≠ "qwen-coder") :
    parseSpec (RawSpec.mk (some (RawAgent.mk (some "a") (some [s]) (some "qwen-coder"))))
      = Except.error (GenError.unknownTool s)
    ∧ parseSpec (RawSpec.mk (some (RawAgent.mk (some "a") (some []) (some m))))
      = Except.error (GenError.unknownModel m)
    ∧ (∀ raws ts, parseTools raws = Except.ok ts →
        ∀ x, x ∈ raws → x = "search" ∨ x = "webpage") := by
  refine ⟨?_, ?_, ?_⟩
  · simp [parseSpec, parseAgent, parseTools, parseTool, hs1, hs2]
  · simp [parseSpec, parseAgent, parseTools, parseModel, hm]
  · intro raws
    induction raws with
    | nil => intro ts _ x hx; exact absurd hx (List.not_mem_nil x)
    | cons y rest ih =>
      intro ts h x hx
      simp only [parseTools] at h
      cases hy : parseTool y with
      | error e => rw [hy] at h; exact absurd h (by simp)
      | ok t =>
        rw [hy] at h
        cases hr : parseTools rest with
        | error e => rw [hr] at h; exact absurd h (by simp)
        | ok ts2 =>
          rcases List.mem_cons.mp hx with hx | hx
          · subst hx
            by_cases e1 : x = "search"
            · exact Or.inl e1
            · by_cases e2 : x = "webpage"
              · exact Or.inr e2
              · simp [parseTool, e1, e2] at hy
          · exact ih ts2 hr x hx

/-- Witness for C4 at case variants of the accepted spellings. -/
theorem c4_unknown_rejected_witness :
    parseSpec (RawSpec.mk (some (RawAgent.mk (some "a") (some ["Search"]) (some "qwen-coder"))))
      = Except.error (GenError.unknownTool "Search")
    ∧ parseSpec (RawSpec.mk (some (RawAgent.mk (some "a") (some []) (some "Qwen-Coder"))))
      = Except.error (GenError.unknownModel "Qwen-Coder")
    ∧ (∀ raws ts, parseTools raws = Except.ok ts →
        ∀ x, x ∈ raws → x = "search" ∨ x = "webpage") :=
  c4_unknown_rejected "Search" "Qwen-Coder" (by decide) (by decide) (by decide)

/-! ## C6: the round-trip demo scenario -/

/-- C6: the spec document with name demo, tools [search], model qwen-coder
parses to the demo Specification; generation writes exactly four files under
demo/; the import slot of the primary file receives exactly the search
capability symbol DuckDuckGoSearchTool; and the model-id slot receives the
fixed identifier string of the QwenCoder variant. -/
theorem c6_roundtrip_demo :
    parseSpec demoDoc = Except.ok demoSpec
    ∧ (render demoSpec).map Prod.fst =
        ["agent.py", "cli.py", "requirements.txt", ".env.example"]
    ∧ (runGen (some demoDoc) false []).2 = none
    ∧ demoFs1.map Prod.fst =
        ["demo/agent.py", "demo/cli.py", "demo/requirements.txt", "demo/.env.example"]
    ∧ render_agent_py demoSpec =
        PY_AGENT_SEG1 ++ "DuckDuckGoSearchTool" ++ PY_AGENT_SEG2
          ++ "Qwen/Qwen2.5-Coder-32B-Instruct" ++ PY_AGENT_SEG3
          ++ "DuckDuckGoSearchTool()" ++ PY_AGENT_SEG4
    ∧ Model.model_id Model.QwenCoder = "Qwen/Qwen2.5-Coder-32B-Instruct" := by
  refine ⟨rfl, rfl, rfl, rfl, rfl, rfl⟩

/-! ## C7: validation precedes any file-system mutation -/

/-- C7: every validation error (MalformedInput from the YAML stage,
MissingField, UnknownTool, UnknownModel from deserialization) aborts the run
with the file system exactly as it was, so a rejected document never
produces partial output; in particular a document omitting model fails with
MissingField naming agent.model. -/
theorem c7_validate_before_write :
    (∀ input force fs e, parseInput input = Except.error e →
        runGen input force fs = (fs, some e))
    ∧ (∀ force fs,
        runGen (some (RawSpec.mk (some (RawAgent.mk (some "bob") (some []) none)))) force fs
          = (fs, some (GenError.missingField "agent.model"))) := by
  constructor
  · intro input force fs e h
    simp [runGen, h]
  · intro force fs
    rfl

/-- Witness for C7: the missing-model document aborts on an empty file
system with no file written. -/
theorem c7_validate_before_write_witness :
    runGen (some (RawSpec.mk (some (RawAgent.mk (some "bob") (some []) none)))) false []
      = ([], some (GenError.missingField "agent.model")) :=
  c7_validate_before_write.1
    (some (RawSpec.mk (some (RawAgent.mk (some "bob") (some []) none)))) false []
    (GenError.missingField "agent.model") (by rfl)

/-! ## C8: the overwrite guard -/

/-- C8: when the first target file already exists and force is off, the run
aborts with AlreadyExists naming that path and the file system is left
exactly as it was (no further file written, existing files untouched); and
in the concrete twice-run scenario, a second run of the demo generation
without force fails with AlreadyExists on demo/agent.py leaving the first
run's files unchanged, while a second run with force succeeds and rewrites
all four files with the rendered contents. -/
theorem c8_overwrite_guard :
    (∀ raw spec fs, parseSpec raw = Except.ok spec →
        fileExists fs (spec.agent.name ++ "/agent.py") = true →
        runGen (some raw) false fs =
          (fs, some (GenError.alreadyExists (spec.agent.name ++ "/agent.py"))))
    ∧ (runGen (some demoDoc) false []).2 = none
    ∧ runGen (some demoDoc) false demoFs1 =
        (demoFs1, some (GenError.alreadyExists "demo/agent.py"))
    ∧ runGen (some demoDoc) true demoFs1 = (demoFs1, none)
    ∧ List.lookup "demo/agent.py" demoFs1 = some (render_agent_py demoSpec)
    ∧ List.lookup "demo/cli.py" demoFs1 = some PY_CLI_TEMPLATE
    ∧ List.lookup "demo/requirements.txt" demoFs1 = some REQUIREMENTS_TXT
    ∧ List.lookup "demo/.env.example" demoFs1 = some ENV_EXAMPLE := by
  refine ⟨?_, rfl, rfl, rfl, rfl, rfl, rfl, rfl⟩
  intro raw spec fs hparse hex
  simp [runGen, parseInput, hparse, writeAll, write_file, hex]

/-- Witness for C8: a file system already holding demo/agent.py makes the
demo run abort with AlreadyExists and leaves the state untouched. -/
theorem c8_overwrite_guard_witness :
    runGen (some demoDoc) false [("demo/agent.py", "old")]
      = ([("demo/agent.py", "old")], some (GenError.alreadyExists "demo/agent.py")) :=
  c8_overwrite_guard.1 demoDoc demoSpec [("demo/agent.py", "old")] (by rfl) (by rfl)

end Tachi
